import Mathlib

/-!
Verification of the core logic of `src/workout.jsx` (WorkoutPal).

The file gives a shallow embedding of the pure core of the program:
the data model (`Exercise`, `Block`, `Workout`, `Step`), the schedule
builder `buildSchedule`, the run-state transitions (`startRun`, `next`,
`prev`, `editRounds`), the persistent-store read `load`, the round-count
input coercion (`roundsCoerce`), and the countdown-timer hook
(`useCountdown` + `BigTimer`) as an explicit transition system
(`Countdown`).

Modelling conventions:
* JS numbers that the program only ever uses as integers (round counts,
  exercise durations, list indices) are embedded as `Int`/`Nat`; the full
  JS numeric domain (NaN, infinities, fractions) is embedded as `JSNum`
  over `ℚ` where the analysis needs it (the round-count input coercion).
* Timestamps and millisecond amounts in the timer model are `ℚ`
  (JS numbers from `performance.now()`).
* JS `null`/`undefined` results are `Option`; exceptions that the source
  catches are enumerated by explicit outcome constructors (`StoreEnv`).
* Lists in the source are never `null` on the paths modelled
  (`blocks || []` and `blk.exercises || []` are identity on arrays).
-/

/-- The unit of an exercise: the source's `type Unit = 'seconds' | 'reps'`
(renamed `ExUnit` because `Unit` is taken in Lean). -/
inductive ExUnit where
  | seconds
  | reps
deriving DecidableEq

/-- `interface Exercise { description; duration; unit; instructions? }`. -/
structure Exercise where
  description : String
  duration : Int
  unit : ExUnit
  instructions : Option String
deriving DecidableEq

/-- `interface Block { name; rounds; exercises }`. -/
structure Block where
  name : String
  rounds : Int
  exercises : List Exercise
deriving DecidableEq

/-- `interface Workout { title; categories }`. -/
structure Workout where
  title : String
  categories : List Block
deriving DecidableEq

/-- `interface Step { bi; ri; ei }` — block index, 1-based round number,
exercise index. -/
structure Step where
  bi : Nat
  ri : Nat
  ei : Nat
deriving DecidableEq

/-- The effective round count of a block:
`Math.max(1, Number(blk.rounds || 1))` from `buildSchedule`.
`blk.rounds || 1` maps the falsy value `0` to `1`; `Number` on a number is
the identity. -/
def effRounds (r : Int) : Int :=
  max 1 (if r = 0 then 1 else r)

/-- The steps contributed by one block at block index `bi`: the body of the
`forEach` in `buildSchedule` — `for (r = 1; r <= rounds; r++)` around
`exercises.forEach((_, ei) => steps.push({bi, ri: r, ei}))`. -/
def blockSteps (bi : Nat) (blk : Block) : List Step :=
  (List.range (effRounds blk.rounds).toNat).flatMap fun r0 =>
    (List.range blk.exercises.length).map fun ei =>
      { bi := bi, ri := r0 + 1, ei := ei }

/-- `blocks.forEach((blk, bi) => ...)` with the running block index made
explicit as the first argument. -/
def buildScheduleFrom (bi : Nat) : List Block → List Step
  | [] => []
  | blk :: rest => blockSteps bi blk ++ buildScheduleFrom (bi + 1) rest

/-- `function buildSchedule(blocks: Block[]): Step[]` from the source. -/
def buildSchedule (blocks : List Block) : List Step :=
  buildScheduleFrom 0 blocks

/-- The strict ordering on steps that the flattening emits: earlier block,
or same block and earlier round, or same block and round and earlier
exercise index. -/
def stepLt (s t : Step) : Prop :=
  s.bi < t.bi ∨ (s.bi = t.bi ∧ (s.ri < t.ri ∨ (s.ri = t.ri ∧ s.ei < t.ei)))

/-- First demo exercise for the concrete 3-round example. -/
def exX : Exercise :=
  { description := "X", duration := 30, unit := ExUnit.seconds, instructions := none }

/-- Second demo exercise. -/
def exY : Exercise :=
  { description := "Y", duration := 20, unit := ExUnit.reps, instructions := none }

/-- Third demo exercise. -/
def exZ : Exercise :=
  { description := "Z", duration := 45, unit := ExUnit.seconds, instructions := none }

/-- A block with `rounds = 3` and exercises `[X, Y, Z]`. -/
def demoBlock : Block :=
  { name := "demo", rounds := 3, exercises := [exX, exY, exZ] }

/-- The nine steps that `buildSchedule [demoBlock]` must produce, in order:
round 1 over X,Y,Z, then round 2, then round 3. -/
def demoSteps : List Step :=
  [⟨0, 1, 0⟩, ⟨0, 1, 1⟩, ⟨0, 1, 2⟩,
   ⟨0, 2, 0⟩, ⟨0, 2, 1⟩, ⟨0, 2, 2⟩,
   ⟨0, 3, 0⟩, ⟨0, 3, 1⟩, ⟨0, 3, 2⟩]

/-- The two UI modes of the app: `"PLAN" | "RUN"`. -/
inductive Mode where
  | PLAN
  | RUN
deriving DecidableEq

/-- First seed workout (`INITIAL_LIBRARY[0]`, "Arm & Ab Workout"). -/
def workout0 : Workout :=
  { title := "Arm & Ab Workout",
    categories :=
      [ { name := "Warm-Up", rounds := 1, exercises :=
            [ { description := "Arm Circles", duration := 30, unit := ExUnit.seconds,
                instructions := some ("Small→large circles, forward & backward.") },
              { description := "Cat-Cow", duration := 6, unit := ExUnit.reps,
                instructions := some ("Breathe with movement; move through full spine.") },
              { description := "Torso Twists", duration := 20, unit := ExUnit.reps,
                instructions := some ("Rotate gently; keep hips facing forward.") } ] },
        { name := "Core (Mat)", rounds := 3, exercises :=
            [ { description := "Plank Hold", duration := 45, unit := ExUnit.seconds,
                instructions := some ("Elbows under shoulders; ribs down; glutes on; no sagging.") },
              { description := "Bicycle Crunches", duration := 20, unit := ExUnit.reps,
                instructions := some ("Slow & controlled; shoulder off mat; exhale on twist.") },
              { description := "Russian Twists", duration := 20, unit := ExUnit.reps,
                instructions := some ("Neutral spine; rotate from ribcage; tap floor each side.") } ] },
        { name := "Upper Body (Weights)", rounds := 3, exercises :=
            [ { description := "Dumbbell Curl to Press", duration := 12, unit := ExUnit.reps,
                instructions := some ("No swinging; rotate to neutral on press; lock ribs.") },
              { description := "Bench Dips", duration := 12, unit := ExUnit.reps,
                instructions := some ("Shoulders down/back; stop ~90° elbow; full lockout up.") },
              { description := "Hammer Curls", duration := 12, unit := ExUnit.reps,
                instructions := some ("Elbows tucked; neutral grip; control negative.") } ] },
        { name := "Cooldown", rounds := 1, exercises :=
            [ { description := "Seated Forward Fold", duration := 45, unit := ExUnit.seconds,
                instructions := some ("Hinge at hips; soft knees; relax neck/jaw.") },
              { description := "Cross-Body Shoulder", duration := 30, unit := ExUnit.seconds,
                instructions := some ("Gently pull arm across; keep shoulder down.") },
              { description := "Child\x27s Pose", duration := 45, unit := ExUnit.seconds,
                instructions := some ("Sit back to heels; reach long; slow breaths.") } ] } ] }

/-- Second seed workout (`INITIAL_LIBRARY[1]`, "Leg & Glute Workout"). -/
def workout1 : Workout :=
  { title := "Leg & Glute Workout",
    categories :=
      [ { name := "Warm-Up", rounds := 1, exercises :=
            [ { description := "Bodyweight Squats", duration := 12, unit := ExUnit.reps,
                instructions := some ("Feet shoulder-width; sit back; chest tall.") },
              { description := "Hip Circles", duration := 30, unit := ExUnit.seconds,
                instructions := some ("Hands on hips; draw big circles; both directions.") },
              { description := "Leg Swings", duration := 10, unit := ExUnit.reps,
                instructions := some ("Front↔back; brace core; build range gradually.") } ] },
        { name := "Glute Activation (Mat)", rounds := 3, exercises :=
            [ { description := "Glute Bridge", duration := 15, unit := ExUnit.reps,
                instructions := some ("Heels close; drive through heels; pause/squeeze at top.") },
              { description := "Clamshells", duration := 15, unit := ExUnit.reps,
                instructions := some ("Band above knees; no hip roll; small controlled ROM.") },
              { description := "Side Plank Hip Lifts", duration := 12, unit := ExUnit.reps,
                instructions := some ("Elbow under shoulder; stack feet; lift straight up/down.") } ] },
        { name := "Leg Strength (Weights)", rounds := 3, exercises :=
            [ { description := "Bulgarian Split Squat", duration := 12, unit := ExUnit.reps,
                instructions := some ("Long stance; torso tall; knee tracks over mid-foot.") },
              { description := "Step Ups", duration := 12, unit := ExUnit.reps,
                instructions := some ("Full foot on bench; drive through heel; control down.") },
              { description := "Romanian Deadlift", duration := 12, unit := ExUnit.reps,
                instructions := some ("Hinge at hips; flat back; slight knee bend; stretch hams.") },
              { description := "Squat Jumps", duration := 15, unit := ExUnit.reps,
                instructions := some ("Soft landing; chest tall; power — good for skiing.") } ] },
        { name := "Cooldown", rounds := 1, exercises :=
            [ { description := "Standing Quad", duration := 30, unit := ExUnit.seconds,
                instructions := some ("Knees together; slight tuck; tall posture.") },
              { description := "Figure-4", duration := 30, unit := ExUnit.seconds,
                instructions := some ("Cross ankle over knee; sit back; keep spine long.") },
              { description := "Seated Hamstring", duration := 45, unit := ExUnit.seconds,
                instructions := some ("Extend leg; hinge forward; breathe into stretch.") } ] } ] }

/-- `const INITIAL_LIBRARY: Workout[]` — the two seed routines. -/
def INITIAL_LIBRARY : List Workout := [workout0, workout1]

/-- The state held by the `App` component that the run-state claims are
about: `library`, `currentIndex`, `mode`, `schedule`, `idx`. -/
structure AppState where
  library : List Workout
  currentIndex : Nat
  mode : Mode
  schedule : List Step
  idx : Nat
deriving DecidableEq

/-- `const workout = library[currentIndex] || INITIAL_LIBRARY[0]`. -/
def workoutOf (s : AppState) : Workout :=
  (s.library[s.currentIndex]?).getD workout0

/-- `const blocks = workout.categories || []`. -/
def blocksOf (s : AppState) : List Block :=
  (workoutOf s).categories

/-- `const cur = schedule[idx]` (JS out-of-range indexing is `undefined`,
embedded as `Option`). -/
def curStep (s : AppState) : Option Step :=
  s.schedule[s.idx]?

/-- `const currentBlock = cur ? blocks[cur.bi] : undefined`. -/
def currentBlockOf (s : AppState) : Option Block :=
  match curStep s with
  | none => none
  | some st => (blocksOf s)[st.bi]?

/-- `const current = cur && currentBlock ? currentBlock.exercises?.[cur.ei] : undefined`. -/
def currentExercise (s : AppState) : Option Exercise :=
  match curStep s, currentBlockOf s with
  | some st, some blk => blk.exercises[st.ei]?
  | _, _ => none

/-- `const startRun = () => { setSchedule(buildSchedule(blocks)); setIdx(0); setMode('RUN'); }`. -/
def startRun (s : AppState) : AppState :=
  { s with schedule := buildSchedule (blocksOf s), idx := 0, mode := Mode.RUN }

/-- `const next = () => { if (idx + 1 < schedule.length) setIdx(idx + 1); else setMode('PLAN'); }`. -/
def next (s : AppState) : AppState :=
  if s.idx + 1 < s.schedule.length then { s with idx := s.idx + 1 }
  else { s with mode := Mode.PLAN }

/-- `const prev = () => { if (idx > 0) setIdx(idx - 1); }`. -/
def prev (s : AppState) : AppState :=
  if 0 < s.idx then { s with idx := s.idx - 1 } else s

/-- The rounds-input coercion `Math.max(1, Number(e.target.value)||1)`
restricted to integral `Number` results (`none` stands for `NaN`); this is
the value `editRounds` stores in the `Int`-valued data model. -/
def coerceRoundsInt (v : Option Int) : Int :=
  max 1 (match v with
         | none => 1
         | some n => if n = 0 then 1 else n)

/-- Update the `i`-th entry of a list in place (JS array copy-and-assign
with an in-range index); out of range, the list is unchanged. -/
def updateAt {α : Type} (l : List α) (i : Nat) (f : α → α) : List α :=
  match l, i with
  | [], _ => []
  | x :: xs, 0 => f x :: xs
  | x :: xs, n + 1 => x :: updateAt xs n f

/-- The rounds `onChange` handler of `App`: copies the library and replaces
`library[currentIndex].categories[bi].rounds` with
`Math.max(1, Number(e.target.value)||1)`; it touches no other state. -/
def editRounds (s : AppState) (bi : Nat) (v : Option Int) : AppState :=
  { s with library :=
      updateAt s.library s.currentIndex fun w =>
        { w with categories :=
            updateAt w.categories bi fun b =>
              { b with rounds := coerceRoundsInt v } } }

/-- A JS number as the rounds input sees it: `NaN`, `±Infinity`, or a
finite value (IEEE doubles are rationals, embedded in `ℚ`). -/
inductive JSNum where
  | nan
  | posInf
  | negInf
  | num (q : ℚ)
deriving DecidableEq

/-- JS `x || 1`: `NaN` and `0` are falsy (so give `1`); every other number,
including the infinities and negatives, passes through. -/
def jsOrOne : JSNum → JSNum
  | JSNum.nan => JSNum.num 1
  | JSNum.num q => if q = 0 then JSNum.num 1 else JSNum.num q
  | x => x

/-- JS `Math.max(1, x)` on the result of `x || 1` (`NaN` propagates,
`+Infinity` wins, everything below `1` clamps to `1`). -/
def jsMaxOne : JSNum → JSNum
  | JSNum.nan => JSNum.nan
  | JSNum.posInf => JSNum.posInf
  | JSNum.negInf => JSNum.num 1
  | JSNum.num q => JSNum.num (max 1 q)

/-- The full-JS-number reading of the rounds `onChange` coercion
`Math.max(1, Number(e.target.value)||1)`, with `v` the value of
`Number(e.target.value)` (`Number("0") = 0`, `Number("-5") = -5`,
`Number("abc") = NaN`, `Number("") = 0`, `Number("2.5") = 2.5`). -/
def roundsCoerce (v : JSNum) : JSNum :=
  jsMaxOne (jsOrOne v)

/-- The outcome of the underlying store for one key, as `useLocalStorage`
distinguishes them: no `window`, `getItem` throwing, key absent
(`raw == null`), or a stored raw string. -/
inductive StoreEnv where
  | noWindow
  | getFails
  | missing
  | stored (raw : String)
deriving DecidableEq

/-- The read path of `useLocalStorage` (the `useState` initializer):
returns `initialValue` when there is no `window`, when the store throws,
and when the key is absent; otherwise deserializes the raw string
(`decode` models `JSON.parse`, `none` a parse error, which the
surrounding `try`/`catch` turns into `initialValue`). -/
def load {T : Type} (decode : String → Option T) (env : StoreEnv)
    (initialValue : T) : T :=
  match env with
  | StoreEnv.noWindow => initialValue
  | StoreEnv.getFails => initialValue
  | StoreEnv.missing => initialValue
  | StoreEnv.stored raw => (decode raw).getD initialValue

/-- A demo `JSON.parse` stand-in for the `load` witness. -/
def decodeNatDemo (s : String) : Option Nat :=
  if s = "42" then some 42 else none

/-- The state of one mounted `useCountdown`/`BigTimer` pair:
`ms` and `remaining` as in the hook, `running` the flag, `start` the
start timestamp of the active animation-frame loop (`none` when no
callback is scheduled), and `completions` the number of times `BigTimer`
has fired `onComplete`. -/
structure Countdown where
  ms : ℚ
  remaining : ℚ
  running : Bool
  start : Option ℚ
  completions : Nat
deriving DecidableEq

/-- Mounting the timer for a step: `useState(ms)` seeds `remaining := ms`,
`running` starts `false`, nothing is scheduled.  (`BigTimer`'s completion
effect runs once on mount, so a zero-length timer completes immediately.) -/
def initCountdown (ms : ℚ) : Countdown :=
  { ms := ms, remaining := ms, running := false, start := none,
    completions := if ms = 0 then 1 else 0 }

/-- `running` flips to `false`: the effect cleanup cancels the pending
animation frame; `remaining` holds its last value. -/
def pauseCountdown (c : Countdown) : Countdown :=
  { c with running := false, start := none }

/-- `running` flips to `true`: the effect body runs again, takes a fresh
`const start = performance.now()` (the current time `t`) and schedules the
loop.  Note it restarts from the full `c.ms`, not from `c.remaining`. -/
def resumeCountdown (c : Countdown) (t : ℚ) : Countdown :=
  { c with running := true, start := some t }

/-- One animation-frame callback at time `t`: when a loop is scheduled,
computes `next = Math.max(0, ms - (t - start))`, stores it, and
reschedules only while `next > 0`.  `BigTimer`'s effect fires
`onComplete` when `remaining` changes to exactly `0`. -/
def frameCountdown (c : Countdown) (t : ℚ) : Countdown :=
  match c.start with
  | none => c
  | some s =>
    let nxt := max 0 (c.ms - (t - s))
    { c with remaining := nxt,
             start := if 0 < nxt then some s else none,
             completions :=
               c.completions + (if nxt = 0 ∧ c.remaining ≠ 0 then 1 else 0) }

/-- Countdown trace for the pause/resume claim: 5000 ms timer, started at
`t = 0`, sampled at `t = 2000` (remaining 3000), then paused. -/
def cdPaused : Countdown :=
  pauseCountdown (frameCountdown (resumeCountdown (initCountdown 5000) 0) 2000)

/-- The same timer resumed at `t = 2100`. -/
def cdResumed : Countdown :=
  resumeCountdown cdPaused 2100

/-- Countdown trace for the completion claim: 5000 ms timer started at
`t = 0` and sampled at `t = 5000`, where `remaining` hits exactly `0`. -/
def cdDone : Countdown :=
  frameCountdown (resumeCountdown (initCountdown 5000) 0) 5000

/-- The completed timer after toggling `running` off and on again at
`t = 7000` and sampling at `t = 7100`. -/
def cdRestarted : Countdown :=
  frameCountdown (resumeCountdown (pauseCountdown cdDone) 7000) 7100

/-- A RUN-mode state sitting on the last (and only) step of its schedule. -/
def runStateAtLast : AppState :=
  { library := [], currentIndex := 0, mode := Mode.RUN,
    schedule := [⟨0, 1, 0⟩], idx := 0 }

/-- A RUN-mode state in the middle of the nine-step demo schedule. -/
def runMidState : AppState :=
  { library := [], currentIndex := 0, mode := Mode.RUN,
    schedule := demoSteps, idx := 0 }

/-- A state whose selected routine has one block with no exercises. -/
def emptyRoutineState : AppState :=
  { library := [ { title := "Empty", categories :=
        [ { name := "B", rounds := 3, exercises := [] } ] } ],
    currentIndex := 0, mode := Mode.PLAN, schedule := [], idx := 0 }

-- ---------- helper lemmas ----------

theorem effRounds_eq_max (r : Int) : effRounds r = max 1 r := by
  by_cases h : r = 0
  · subst h; decide
  · simp [effRounds, h]

theorem sum_map_const_nat {α : Type} (l : List α) (m : Nat) :
    (l.map fun _ => m).sum = l.length * m := by
  induction l with
  | nil => simp
  | cons a t ih => simp [ih, Nat.succ_mul, Nat.add_comm]

theorem blockSteps_length (bi : Nat) (blk : Block) :
    (blockSteps bi blk).length = (effRounds blk.rounds).toNat * blk.exercises.length := by
  simp [blockSteps, List.length_flatMap, Function.comp_def, sum_map_const_nat]

theorem buildScheduleFrom_length (n : Nat) (B : List Block) :
    (buildScheduleFrom n B).length
      = (B.map fun b => (effRounds b.rounds).toNat * b.exercises.length).sum := by
  induction B generalizing n with
  | nil => rfl
  | cons b t ih => simp [buildScheduleFrom, blockSteps_length, ih]

theorem mem_blockSteps {s : Step} {bi : Nat} {blk : Block}
    (h : s ∈ blockSteps bi blk) :
    s.bi = bi ∧ 1 ≤ s.ri ∧ s.ri ≤ (effRounds blk.rounds).toNat
      ∧ s.ei < blk.exercises.length := by
  rw [blockSteps, List.mem_flatMap] at h
  obtain ⟨r0, hr0, hm⟩ := h
  rw [List.mem_map] at hm
  obtain ⟨ei, hei, rfl⟩ := hm
  rw [List.mem_range] at hr0
  rw [List.mem_range] at hei
  exact ⟨rfl, Nat.succ_le_succ (Nat.zero_le r0), hr0, hei⟩

theorem mem_buildScheduleFrom {s : Step} {n : Nat} {B : List Block}
    (h : s ∈ buildScheduleFrom n B) :
    ∃ j blk, j < B.length ∧ B[j]? = some blk ∧ s.bi = n + j
      ∧ 1 ≤ s.ri ∧ s.ri ≤ (effRounds blk.rounds).toNat
      ∧ s.ei < blk.exercises.length := by
  induction B generalizing n with
  | nil => cases h
  | cons b t ih =>
    rw [buildScheduleFrom, List.mem_append] at h
    cases h with
    | inl hl =>
      obtain ⟨hbi, h1, h2, h3⟩ := mem_blockSteps hl
      refine ⟨0, b, Nat.succ_pos _, by simp, by omega, h1, h2, h3⟩
    | inr hr =>
      obtain ⟨j, blk, hj, hget, hbi, h1, h2, h3⟩ := ih hr
      refine ⟨j + 1, blk, ?_, ?_, by omega, h1, h2, h3⟩
      · simp only [List.length_cons]
        omega
      · simpa using hget

theorem pairwise_flatMap_of {α β : Type} {R : β → β → Prop}
    {l : List α} {f : α → List β}
    (h1 : ∀ a ∈ l, (f a).Pairwise R)
    (h2 : l.Pairwise fun a b => ∀ x ∈ f a, ∀ y ∈ f b, R x y) :
    (l.flatMap f).Pairwise R := by
  induction l with
  | nil => simp
  | cons a t ih =>
    rw [List.pairwise_cons] at h2
    rw [List.flatMap_cons, List.pairwise_append]
    refine ⟨h1 a (by simp), ih (fun x hx => h1 x (by simp [hx])) h2.2, ?_⟩
    intro x hx y hy
    rw [List.mem_flatMap] at hy
    obtain ⟨b, hb, hyb⟩ := hy
    exact h2.1 b hb x hx y hyb

theorem blockSteps_pairwise (bi : Nat) (blk : Block) :
    (blockSteps bi blk).Pairwise stepLt := by
  rw [blockSteps]
  apply pairwise_flatMap_of
  · intro r0 _
    rw [List.pairwise_map]
    refine (List.pairwise_lt_range _).imp ?_
    intro a b hab
    exact Or.inr ⟨rfl, Or.inr ⟨rfl, hab⟩⟩
  · refine (List.pairwise_lt_range _).imp ?_
    intro a b hab x hx y hy
    rw [List.mem_map] at hx
    rw [List.mem_map] at hy
    obtain ⟨ex, _, rfl⟩ := hx
    obtain ⟨ey, _, rfl⟩ := hy
    exact Or.inr ⟨rfl, Or.inl (Nat.succ_lt_succ hab)⟩

theorem buildScheduleFrom_pairwise (n : Nat) (B : List Block) :
    (buildScheduleFrom n B).Pairwise stepLt := by
  induction B generalizing n with
  | nil => exact List.Pairwise.nil
  | cons b t ih =>
    rw [buildScheduleFrom, List.pairwise_append]
    refine ⟨blockSteps_pairwise n b, ih (n + 1), ?_⟩
    intro x hx y hy
    have hxbi := (mem_blockSteps hx).1
    obtain ⟨j, blk, _, _, hybi, _⟩ := mem_buildScheduleFrom hy
    exact Or.inl (by omega)

-- ---------- claims about the schedule builder ----------

/-- Claim C1: for every list of blocks `B`, the length of
`buildSchedule B` equals the sum over each block `b` of
`max(1, intOrDefault(b.rounds, 1)) * b.exercises.length`
(for integral round counts `intOrDefault(r, 1)` followed by `max 1` is
`max 1 r`); in particular `buildSchedule [] = []`. -/
theorem buildSchedule_length_eq (B : List Block) :
    (buildSchedule B).length
        = (B.map fun b => (max 1 b.rounds).toNat * b.exercises.length).sum
      ∧ buildSchedule ([] : List Block) = [] := by
  constructor
  · rw [buildSchedule, buildScheduleFrom_length]
    simp [effRounds_eq_max]
  · rfl

/-- Claim C2: `buildSchedule` emits steps in block order, and within one
block in round order, and within one round in exercise-list order: the
whole output is pairwise increasing for the strict lexicographic order
`stepLt` on `(bi, ri, ei)`.  Concretely, a single block with `rounds = 3`
and exercises `[X, Y, Z]` yields exactly the nine steps
round 1: X,Y,Z; round 2: X,Y,Z; round 3: X,Y,Z, in that order. -/
theorem buildSchedule_ordered :
    (∀ B : List Block, (buildSchedule B).Pairwise stepLt)
      ∧ buildSchedule [demoBlock] = demoSteps := by
  constructor
  · intro B
    exact buildScheduleFrom_pairwise 0 B
  · decide

/-- Claim C10: every step of a freshly built schedule dereferences to an
existing block and exercise: `s.bi` is in range (the lookup succeeds, so
`s.bi < B.length`), `s.ei` indexes into that block's exercise list, and
`1 ≤ s.ri ≤ max(1, rounds)`. -/
theorem buildSchedule_indices_in_range (B : List Block) (s : Step)
    (h : s ∈ buildSchedule B) :
    ∃ blk, s.bi < B.length ∧ B[s.bi]? = some blk
      ∧ 1 ≤ s.ri ∧ s.ri ≤ (max 1 blk.rounds).toNat
      ∧ s.ei < blk.exercises.length := by
  obtain ⟨j, blk, hj, hget, hbi, h1, h2, h3⟩ := mem_buildScheduleFrom h
  have hbj : s.bi = j := by omega
  refine ⟨blk, ?_, ?_, h1, ?_, h3⟩
  · omega
  · rw [hbj]; exact hget
  · rw [← effRounds_eq_max]; exact h2

/-- Claim C10 witness: `buildSchedule_indices_in_range` evaluated at the
step `(0, 1, 0)` of the demo schedule, which points at `demoBlock` and
its first exercise. -/
theorem buildSchedule_indices_in_range_witness :
    (⟨0, 1, 0⟩ : Step) ∈ buildSchedule [demoBlock]
      ∧ ∃ blk, (⟨0, 1, 0⟩ : Step).bi < ([demoBlock] : List Block).length
          ∧ ([demoBlock] : List Block)[(⟨0, 1, 0⟩ : Step).bi]? = some blk
          ∧ 1 ≤ (⟨0, 1, 0⟩ : Step).ri
          ∧ (⟨0, 1, 0⟩ : Step).ri ≤ (max 1 blk.rounds).toNat
          ∧ (⟨0, 1, 0⟩ : Step).ei < blk.exercises.length :=
  ⟨by decide, buildSchedule_indices_in_range [demoBlock] ⟨0, 1, 0⟩ (by decide)⟩

-- ---------- claims about the run-state controller ----------

/-- Claim C4 (amended): in RUN mode, `next` with `idx + 1 < schedule.length`
increments the index and stays in RUN; at the last index it transitions the
mode to PLAN while leaving the (now stale, unused) schedule and index
unchanged in memory, and a further `next` is a no-op (the state does not
change again). -/
theorem next_advance_spec (s : AppState) (hmode : s.mode = Mode.RUN) :
    (s.idx + 1 < s.schedule.length →
        next s = { s with idx := s.idx + 1 } ∧ (next s).mode = Mode.RUN) ∧
    (s.idx + 1 = s.schedule.length →
        (next s).mode = Mode.PLAN ∧ (next s).idx = s.idx
          ∧ (next s).schedule = s.schedule ∧ next (next s) = next s) := by
  constructor
  · intro h
    constructor
    · simp [next, h]
    · simp [next, h, hmode]
  · intro h
    have hnot : ¬ (s.idx + 1 < s.schedule.length) := by omega
    refine ⟨by simp [next, hnot], by simp [next, hnot], by simp [next, hnot], ?_⟩
    simp [next, hnot]

/-- Claim C4 witness: `next_advance_spec` evaluated on a concrete RUN-mode
state in the middle of the nine-step demo schedule. -/
theorem next_advance_spec_witness :
    runMidState.mode = Mode.RUN ∧
      ((runMidState.idx + 1 < runMidState.schedule.length →
          next runMidState = { runMidState with idx := runMidState.idx + 1 }
            ∧ (next runMidState).mode = Mode.RUN) ∧
        (runMidState.idx + 1 = runMidState.schedule.length →
          (next runMidState).mode = Mode.PLAN
            ∧ (next runMidState).idx = runMidState.idx
            ∧ (next runMidState).schedule = runMidState.schedule
            ∧ next (next runMidState) = next runMidState)) :=
  ⟨by decide, next_advance_spec runMidState (by decide)⟩

/-- Claim C4 counterexample: advancing from the last index does flip the
mode to PLAN, but the schedule does not become empty — `next` leaves the
schedule state exactly as it was. -/
theorem next_discard_counterexample :
    (next runStateAtLast).mode = Mode.PLAN
      ∧ (next runStateAtLast).schedule ≠ ([] : List Step)
      ∧ (next runStateAtLast).schedule = runStateAtLast.schedule := by
  decide

/-- Claim C6: the rounds `onChange` handler only rewrites the library;
the running schedule, index and mode are untouched, and a schedule built
at run start stays the one built from the block configuration at that
instant — with the step count given by the old rounds — no matter which
round edit happens afterwards. -/
theorem editRounds_preserves_schedule (s : AppState) (bi : Nat) (v : Option Int) :
    (editRounds s bi v).schedule = s.schedule
      ∧ (editRounds s bi v).idx = s.idx
      ∧ (editRounds s bi v).mode = s.mode
      ∧ (editRounds (startRun s) bi v).schedule = buildSchedule (blocksOf s)
      ∧ ((editRounds (startRun s) bi v).schedule).length
          = ((blocksOf s).map fun b => (max 1 b.rounds).toNat * b.exercises.length).sum := by
  refine ⟨rfl, rfl, rfl, rfl, ?_⟩
  show (buildSchedule (blocksOf s)).length = _
  rw [buildSchedule, buildScheduleFrom_length]
  simp [effRounds_eq_max]

-- ---------- claims about the rounds-input coercion ----------

/-- Claim C7 (amended): for every value of `Number(input)`, the stored
rounds value `Math.max(1, Number(input)||1)` is never `NaN` and is at
least `1` (either `+Infinity` or a rational `≥ 1`), but it need not be an
integer; the inputs `0`, `-5`, `"abc"` (`Number` gives `NaN`) and the
empty string (`Number` gives `0`) all coerce to exactly `1`, and no input
is rejected (the coercion is total). -/
theorem roundsCoerce_ge_one :
    (∀ v : JSNum, roundsCoerce v ≠ JSNum.nan
        ∧ (roundsCoerce v = JSNum.posInf
            ∨ ∃ q : ℚ, 1 ≤ q ∧ roundsCoerce v = JSNum.num q))
      ∧ roundsCoerce (JSNum.num 0) = JSNum.num 1
      ∧ roundsCoerce (JSNum.num (-5)) = JSNum.num 1
      ∧ roundsCoerce JSNum.nan = JSNum.num 1 := by
  refine ⟨?_, ?_, ?_, ?_⟩
  · intro v
    cases v with
    | nan =>
      exact ⟨by simp [roundsCoerce, jsOrOne, jsMaxOne],
        Or.inr ⟨1, le_refl 1, by simp [roundsCoerce, jsOrOne, jsMaxOne]⟩⟩
    | posInf =>
      exact ⟨by simp [roundsCoerce, jsOrOne, jsMaxOne],
        Or.inl (by simp [roundsCoerce, jsOrOne, jsMaxOne])⟩
    | negInf =>
      exact ⟨by simp [roundsCoerce, jsOrOne, jsMaxOne],
        Or.inr ⟨1, le_refl 1, by simp [roundsCoerce, jsOrOne, jsMaxOne]⟩⟩
    | num q =>
      by_cases h : q = 0
      · exact ⟨by simp [roundsCoerce, jsOrOne, jsMaxOne, h],
          Or.inr ⟨1, le_refl 1, by simp [roundsCoerce, jsOrOne, jsMaxOne, h]⟩⟩
      · exact ⟨by simp [roundsCoerce, jsOrOne, jsMaxOne, h],
          Or.inr ⟨max 1 q, le_max_left 1 q,
            by simp [roundsCoerce, jsOrOne, jsMaxOne, h]⟩⟩
  · norm_num [roundsCoerce, jsOrOne, jsMaxOne]
  · norm_num [roundsCoerce, jsOrOne, jsMaxOne]
  · norm_num [roundsCoerce, jsOrOne, jsMaxOne]

/-- Claim C7 counterexample: the input `"2.5"` (`Number` gives `2.5`) is
stored as `2.5`, which is not an integer — the stored rounds value is not
always an integer as the claim states. -/
theorem roundsCoerce_integer_counterexample :
    roundsCoerce (JSNum.num (5 / 2)) = JSNum.num (5 / 2)
      ∧ ∀ n : ℤ, roundsCoerce (JSNum.num (5 / 2)) ≠ JSNum.num ((n : ℚ)) := by
  have h1 : roundsCoerce (JSNum.num (5 / 2)) = JSNum.num (5 / 2) := by
    norm_num [roundsCoerce, jsOrOne, jsMaxOne]
  refine ⟨h1, ?_⟩
  intro n hn
  rw [h1] at hn
  have h2 : ((5 : ℚ) / 2) = (n : ℚ) := JSNum.num.inj hn
  have h3 : (2 : ℚ) * (n : ℚ) = 5 := by
    rw [← h2]
    norm_num
  have h4 : (2 : ℤ) * n = 5 := by exact_mod_cast h3
  omega

-- ---------- claims about empty runs ----------

theorem blockSteps_nil_of_empty (bi : Nat) (blk : Block)
    (h : blk.exercises = []) : blockSteps bi blk = [] := by
  simp [blockSteps, h]

theorem buildScheduleFrom_nil_of_empty (n : Nat) (B : List Block)
    (h : ∀ b ∈ B, b.exercises = []) : buildScheduleFrom n B = [] := by
  induction B generalizing n with
  | nil => rfl
  | cons b t ih =>
    rw [buildScheduleFrom, blockSteps_nil_of_empty _ _ (h b (by simp)),
      ih _ (fun x hx => h x (by simp [hx]))]
    rfl

/-- Claim C8: starting a run when every block of the selected routine has
zero exercises (hence the routine has zero total steps) is a silent no-op:
the mode does switch to RUN, the schedule is empty, and all three
step-dependent accessors (`cur`, `currentBlock`, `current`) are guarded
`undefined`s, so nothing is dereferenced and nothing throws. -/
theorem startRun_empty_noop (s : AppState)
    (h : ∀ b ∈ blocksOf s, b.exercises = []) :
    (startRun s).mode = Mode.RUN ∧ (startRun s).schedule = []
      ∧ curStep (startRun s) = none ∧ currentBlockOf (startRun s) = none
      ∧ currentExercise (startRun s) = none := by
  have hs : buildSchedule (blocksOf s) = [] :=
    buildScheduleFrom_nil_of_empty 0 _ h
  refine ⟨rfl, hs, ?_, ?_, ?_⟩
  · simp [curStep, startRun, hs]
  · simp [currentBlockOf, curStep, startRun, hs]
  · simp [currentExercise, curStep, startRun, hs]

/-- Claim C8 witness: `startRun_empty_noop` evaluated on a concrete state
whose routine has one block with an empty exercise list. -/
theorem startRun_empty_noop_witness :
    (∀ b ∈ blocksOf emptyRoutineState, b.exercises = ([] : List Exercise))
      ∧ ((startRun emptyRoutineState).mode = Mode.RUN
          ∧ (startRun emptyRoutineState).schedule = []
          ∧ curStep (startRun emptyRoutineState) = none
          ∧ currentBlockOf (startRun emptyRoutineState) = none
          ∧ currentExercise (startRun emptyRoutineState) = none) :=
  ⟨by decide, startRun_empty_noop emptyRoutineState (by decide)⟩

-- ---------- claims about the persistent store adapter ----------

/-- Claim C9: for every decoder, store outcome and default, `load` returns
the default when there is no browser environment, when the underlying
store fails, and when the key is absent or its blob fails to deserialize;
when a stored blob deserializes, `load` returns the deserialized value.
`load` is a total function: every failure is absorbed, none is raised to
the caller. -/
theorem load_spec {T : Type} (decode : String → Option T) (d : T) :
    load decode StoreEnv.noWindow d = d
      ∧ load decode StoreEnv.getFails d = d
      ∧ load decode StoreEnv.missing d = d
      ∧ (∀ raw : String, decode raw = none →
          load decode (StoreEnv.stored raw) d = d)
      ∧ (∀ (raw : String) (v : T), decode raw = some v →
          load decode (StoreEnv.stored raw) d = v) := by
  refine ⟨rfl, rfl, rfl, ?_, ?_⟩
  · intro raw h
    simp [load, h]
  · intro raw v h
    simp [load, h]

/-- Claim C9 witness: `load_spec` evaluated with a concrete decoder — a
malformed blob falls back to the default `7`, a well-formed blob decodes
to `42`. -/
theorem load_spec_witness :
    load decodeNatDemo (StoreEnv.stored ("abc")) 7 = 7
      ∧ load decodeNatDemo (StoreEnv.stored ("42")) 7 = 42 :=
  ⟨(load_spec decodeNatDemo 7).2.2.2.1 ("abc") (by decide),
   (load_spec decodeNatDemo 7).2.2.2.2 ("42") 42 (by decide)⟩

-- ---------- claims about the countdown timer ----------

/-- Claim C3 evidence: the pause/resume path of `useCountdown`.  With a
5000 ms timer started at `t = 0`, sampled at `t = 2000` (remaining 3000)
and paused, toggling `running` back on at `t = 2100` re-runs the effect
with a fresh `start` but the **full** `ms`: the very next sample computes
`max(0, 5000 - elapsedSinceResume)`, which is `5000 = totalMs` at the
resume instant and `4984 > 3000` one frame (16 ms) later — the countdown
restarts from `totalMs` instead of continuing from 3000. -/
theorem countdown_resume_resets :
    cdPaused.remaining = 3000 ∧ cdPaused.ms = 5000
      ∧ (frameCountdown cdResumed 2100).remaining = 5000
      ∧ (frameCountdown cdResumed 2116).remaining = 4984 := by
  have h0 : initCountdown 5000
      = { ms := 5000, remaining := 5000, running := false, start := none,
          completions := 0 } := by
    norm_num [initCountdown]
  have p1 : cdPaused
      = { ms := 5000, remaining := 3000, running := false, start := none,
          completions := 0 } := by
    rw [cdPaused, h0]
    norm_num [resumeCountdown, frameCountdown, pauseCountdown]
  have p2 : frameCountdown cdResumed 2100
      = { ms := 5000, remaining := 5000, running := true, start := some 2100,
          completions := 0 } := by
    rw [cdResumed, p1]
    norm_num [resumeCountdown, frameCountdown]
  have p3 : frameCountdown cdResumed 2116
      = { ms := 5000, remaining := 4984, running := true, start := some 2100,
          completions := 0 } := by
    rw [cdResumed, p1]
    norm_num [resumeCountdown, frameCountdown]
  rw [p1, p2, p3]
  norm_num

/-- Claim C5 evidence: completion behaviour of `useCountdown`/`BigTimer`.
A 5000 ms timer started at `t = 0` and sampled at `t = 5000` reaches
`remaining = 0`, stops scheduling (a later frame changes nothing) and
fires the complete signal exactly once — that half of the claim holds.
But toggling `running` off and on at `t = 7000` re-schedules the loop
with the full `ms`: the countdown restarts (`remaining = 4900` at
`t = 7100`) and the complete signal fires a second time when it reaches
`0` again at `t = 12000` — contradicting the claim's "never restarts"
and "exactly once". -/
theorem countdown_completion_and_restart :
    cdDone.remaining = 0 ∧ cdDone.start = none ∧ cdDone.completions = 1
      ∧ frameCountdown cdDone 6000 = cdDone
      ∧ cdRestarted.remaining = 4900 ∧ cdRestarted.start = some 7000
      ∧ (frameCountdown cdRestarted 12000).remaining = 0
      ∧ (frameCountdown cdRestarted 12000).completions = 2 := by
  have h0 : initCountdown 5000
      = { ms := 5000, remaining := 5000, running := false, start := none,
          completions := 0 } := by
    norm_num [initCountdown]
  have h1 : cdDone
      = { ms := 5000, remaining := 0, running := true, start := none,
          completions := 1 } := by
    rw [cdDone, h0]
    norm_num [resumeCountdown, frameCountdown]
  have h2 : cdRestarted
      = { ms := 5000, remaining := 4900, running := true, start := some 7000,
          completions := 1 } := by
    rw [cdRestarted, h1]
    norm_num [pauseCountdown, resumeCountdown, frameCountdown]
  have h3 : frameCountdown cdRestarted 12000
      = { ms := 5000, remaining := 0, running := true, start := none,
          completions := 2 } := by
    rw [h2]
    norm_num [frameCountdown]
  refine ⟨by rw [h1], by rw [h1], by rw [h1], ?_, by rw [h2], by rw [h2],
    by rw [h3], by rw [h3]⟩
  rw [h1]
  rfl
